import Mathlib

/-!
Verification of the `app/main.py` FastAPI service.

Shallow embedding: pure Python fragments become Lean functions; the
fallible `int()` builtin returns `Option Int` (with `none` standing for a
raised `ValueError`); logging becomes explicit log-line lists; the
framework's request dispatch and lifecycle become explicit functions on a
`Request` type and an event trace.
-/

set_option maxRecDepth 20000

/- ----------------------------------------------------------------------
Python `str` of integers (decimal rendering, as used by f-strings and
`%s` formatting).
---------------------------------------------------------------------- -/

/-- The decimal digit character for `n < 10` (codepoint 48 + n). -/
def digitChar (n : Nat) : Char := Char.ofNat (48 + n)

/-- Fuel-driven decimal digit list of a natural number, most significant
digit first. Structural recursion on the fuel keeps it kernel-reducible. -/
def natDigitsAux : Nat → Nat → List Char
  | 0, _ => []
  | fuel + 1, n =>
    if n < 10 then [digitChar n]
    else natDigitsAux fuel (n / 10) ++ [digitChar (n % 10)]

/-- Decimal digits of `n`, most significant first; fuel `n + 1` always
suffices since each step divides by 10. -/
def natDigits (n : Nat) : List Char := natDigitsAux (n + 1) n

/-- Python `str` of a natural number. -/
def pyStrNat (n : Nat) : String := ⟨natDigits n⟩

/-- Python `str` of an `int`: decimal digits with a leading `-` for
negative values. -/
def pyStrInt (p : Int) : String :=
  if p < 0 then ⟨'-' :: natDigits p.natAbs⟩ else ⟨natDigits p.toNat⟩

/- ----------------------------------------------------------------------
Python `int(s)` (base 10, ASCII fragment): optional surrounding
whitespace, optional sign, then digits with single underscores allowed
only between digits. `none` models a raised `ValueError`.
---------------------------------------------------------------------- -/

/-- ASCII whitespace stripped by Python `int()`. -/
def isPyWS (c : Char) : Bool :=
  c = ' ' || c = '\t' || c = '\n' || c = '\x0b' || c = '\x0c' || c = '\r'

/-- Strip leading and trailing whitespace from a character list. -/
def stripPyWS (l : List Char) : List Char :=
  ((l.dropWhile isPyWS).reverse.dropWhile isPyWS).reverse

/-- Continue a digit run after at least one digit has been read: a `_`
must be followed by another digit, anything else is an error. -/
def parseDigitRun : Nat → List Char → Option Nat
  | acc, [] => some acc
  | acc, c :: cs =>
    if c.isDigit then parseDigitRun (10 * acc + (c.toNat - 48)) cs
    else if c = '_' then
      match cs with
      | [] => none
      | d :: cs' =>
        if d.isDigit then parseDigitRun (10 * acc + (d.toNat - 48)) cs' else none
    else none

/-- Parse an unsigned decimal digit run; the first character must be a
digit (no leading underscore, no empty run). -/
def parseUnsigned : List Char → Option Nat
  | [] => none
  | c :: cs => if c.isDigit then parseDigitRun (c.toNat - 48) cs else none

/-- Python `int(s)` in base 10 on ASCII input; `none` models `ValueError`. -/
def pyInt (s : String) : Option Int :=
  match stripPyWS s.data with
  | '+' :: rest => (parseUnsigned rest).map Int.ofNat
  | '-' :: rest => (parseUnsigned rest).map (fun n => -(n : Int))
  | rest => (parseUnsigned rest).map Int.ofNat

/- ----------------------------------------------------------------------
Configuration (main.py line 27): `PORT: int = int(os.getenv("PORT", "8080"))`.
The process environment is modelled as `Option String` (the value of the
`PORT` environment variable, or `none` when unset).
---------------------------------------------------------------------- -/

/-- `os.getenv(name, default)`: the variable's value when set, else the
default string. -/
def os_getenv (env : Option String) (dflt : String) : String := env.getD dflt

/-- The module-level `PORT` computation: `int(os.getenv("PORT", "8080"))`.
`none` models the `ValueError` that `int()` raises on an unparsable value,
which aborts the module import (startup crash). -/
def PORT (env : Option String) : Option Int := pyInt (os_getenv env "8080")

/- ----------------------------------------------------------------------
The HTML template (main.py lines 73-193). The f-string splits into three
literal parts around the `{server_time}` and `{port}` placeholders; the
doubled braces of the source are single literal braces here (written with
hex escapes).
---------------------------------------------------------------------- -/

/-- First half of the template text before the `server_time`
placeholder (split into evaluation-friendly chunks). -/
def htmlPart1a : String :=
"<!DOCTYPE html>
<html lang=\"en\">
<head>
  <meta charset=\"utf-8\">
  <meta name=\"viewport\" content=\"width=device-width, initial-scale=1\">
  <title>AKS PoC</title>
  <style>
    *,*::before,*::after\x7bbox-sizing:border-box;margin:0;padding:0\x7d

    body\x7b
      min-height:100vh;
      display:flex;
      align-items:center;
      justify-content:center;
      font-family:-apple-system,BlinkMacSystemFont,\"Segoe UI\",Roboto,
                   \"Helvetica Neue\",Arial,sans-serif;
      background:linear-gradient(135deg,#0f0c29,#302b63,#24243e);
      color:#e2e8f0;
      padding:1rem;
    \x7d

    .card\x7b
      background:rgba(255,255,255,.06);
      backdrop-filter:blur(12px);
      border:1px solid rgba(255,255,255,.10);
      border-radius:1.25rem;
      padding:3rem 3.5rem;
      max-width:480px;
      width:100%;
      text-align:center;
      box-shadow:0 8px 32px rgba(0,0,0,.35);
    \x7d

    .badge\x7b
      display:inline-block;
      font-size:.7rem;
      font-weight:600;
      letter-spacing:.08em;
      text-transform:uppercase;
      background:rgba(99,102,241,.25);
      color:#a5b4fc;
      padding:.3rem .85rem;
      border-radius:999px;
      margin-bottom:1.5rem;
    \x7d

    h1\x7b
      font-size:2.4rem;
"

/-- Second half of the template text before the `server_time`
placeholder. -/
def htmlPart1b : String :=
"      font-weight:700;
      background:linear-gradient(90deg,#818cf8,#c084fc);
      -webkit-background-clip:text;
      -webkit-text-fill-color:transparent;
      margin-bottom:.5rem;
    \x7d

    .subtitle\x7b
      font-size:1rem;
      color:#94a3b8;
      margin-bottom:2.5rem;
    \x7d

    .meta\x7b
      display:flex;
      flex-direction:column;
      gap:.75rem;
    \x7d

    .meta-row\x7b
      display:flex;
      justify-content:space-between;
      align-items:center;
      background:rgba(255,255,255,.04);
      padding:.65rem 1rem;
      border-radius:.6rem;
      font-size:.875rem;
    \x7d

    .meta-label\x7b
      color:#64748b;
      font-weight:500;
    \x7d

    .meta-value\x7b
      color:#cbd5e1;
      font-family:\"SF Mono\",SFMono-Regular,Menlo,Consolas,monospace;
      font-size:.82rem;
    \x7d

    .footer\x7b
      margin-top:2rem;
      font-size:.7rem;
      color:#475569;
    \x7d
  </style>
</head>
<body>
  <main class=\"card\">
    <span class=\"badge\">AKS PoC Service</span>
    <h1>Hello, World!</h1>
    <p class=\"subtitle\">FastAPI + Uvicorn on Kubernetes</p>
    <div class=\"meta\">
      <div class=\"meta-row\">
        <span class=\"meta-label\">Server Time</span>
        <span class=\"meta-value\">"

/-- Template text before the `server_time` placeholder. -/
def htmlPart1 : String := htmlPart1a ++ htmlPart1b

/-- Template text between the `server_time` and `port` placeholders. -/
def htmlPart2 : String :=
"</span>
      </div>
      <div class=\"meta-row\">
        <span class=\"meta-label\">Port</span>
        <span class=\"meta-value\">"

/-- Template text after the `port` placeholder. -/
def htmlPart3 : String :=
"</span>
      </div>
      <div class=\"meta-row\">
        <span class=\"meta-label\">Runtime</span>
        <span class=\"meta-value\">Python 3.12</span>
      </div>
    </div>
    <p class=\"footer\">Running as non-root &middot; Ready for production</p>
  </main>
</body>
</html>"

/-- `_render_page(*, server_time, port)` (main.py lines 73-193): the
f-string interpolates `server_time` verbatim and `port` via `str()`. -/
def _render_page (server_time : String) (port : Int) : String :=
  htmlPart1 ++ server_time ++ htmlPart2 ++ pyStrInt port ++ htmlPart3

/- ----------------------------------------------------------------------
Substring occurrence counting and the single-root-HTML predicate used to
state well-formedness of the rendered page.
---------------------------------------------------------------------- -/

/-- Number of positions of `l` at which `pat` occurs as a contiguous
sublist. -/
def countOcc (pat : List Char) : List Char → Nat
  | [] => if pat.isPrefixOf [] then 1 else 0
  | c :: rest => (if pat.isPrefixOf (c :: rest) then 1 else 0) + countOcc pat rest

/-- Number of positions within `xs` at which `pat` starts an occurrence
inside `xs ++ ys` (the occurrence may run on into `ys`). Splitting
`countOcc` through this function keeps concrete evaluations shallow. -/
def countStart (pat ys : List Char) : List Char → Nat
  | [] => 0
  | c :: rest => (if pat.isPrefixOf (c :: (rest ++ ys)) then 1 else 0) + countStart pat ys rest

/-- The characters of the `<html ...>` opening tag. -/
def openTag : List Char := ['<', 'h', 't', 'm', 'l']

/-- The characters of the `</html>` closing tag. -/
def closeTag : List Char := ['<', '/', 'h', 't', 'm', 'l', '>']

/-- Characters that can take part in an `<html`/`</html>` tag occurrence. -/
def tagChars : List Char := ['<', '>', '/', 'h', 't', 'm', 'l']

/-- A document with a single root `<html>` element: it starts with the
doctype declaration, the `<html` opening tag and the `</html>` closing tag
each occur exactly once, and the closing tag is the very end of the
document. -/
def singleRootHtml (doc : String) : Prop :=
  countOcc openTag doc.data = 1 ∧ countOcc closeTag doc.data = 1 ∧
  ("<!DOCTYPE html>" : String).data <+: doc.data ∧ closeTag <:+ doc.data

/- ----------------------------------------------------------------------
HTTP model: requests, responses, the two handlers, the framework
dispatcher, the logging middleware and the per-request pipeline.
---------------------------------------------------------------------- -/

/-- The parts of an HTTP request the service looks at. -/
structure Request where
  method : String
  path : String
deriving DecidableEq

/-- The parts of an HTTP response the service produces. -/
structure HTTPResponse where
  status : Nat
  contentType : String
  body : String
deriving DecidableEq

/-- A UTC wall-clock reading, the input of `datetime.strftime`. -/
structure DateTime where
  year : Nat
  month : Nat
  day : Nat
  hour : Nat
  minute : Nat
  second : Nat
deriving DecidableEq

/-- `n` rendered in decimal and left-padded with `0` to width `k`, as the
zero-padding strftime directives produce. -/
def padNum (k n : Nat) : String :=
  ⟨List.replicate (k - (natDigits n).length) '0' ++ natDigits n⟩

/-- `datetime.strftime("%Y-%m-%d %H:%M:%S UTC")` on a UTC time. -/
def strftimeUTC (t : DateTime) : String :=
  padNum 4 t.year ++ "-" ++ padNum 2 t.month ++ "-" ++ padNum 2 t.day ++ " " ++
  padNum 2 t.hour ++ ":" ++ padNum 2 t.minute ++ ":" ++ padNum 2 t.second ++ " UTC"

/-- Whether a string has the shape `YYYY-MM-DD HH:MM:SS UTC`: 23
characters, digits in the date and time positions, the fixed separators
elsewhere. -/
def timeFormatOK (s : String) : Bool :=
  match s.data with
  | [y1, y2, y3, y4, d1, m1, m2, d2, a1, a2, sp, h1, h2, c1, n1, n2, c2, s1, s2, sp2, u1, u2, u3] =>
    y1.isDigit && y2.isDigit && y3.isDigit && y4.isDigit && d1 == '-' &&
    m1.isDigit && m2.isDigit && d2 == '-' && a1.isDigit && a2.isDigit &&
    sp == ' ' && h1.isDigit && h2.isDigit && c1 == ':' && n1.isDigit &&
    n2.isDigit && c2 == ':' && s1.isDigit && s2.isDigit && sp2 == ' ' &&
    u1 == 'U' && u2 == 'T' && u3 == 'C'
  | _ => false

/-- The `root` handler (main.py lines 49-53): formats the current UTC time
and renders the page; `HTMLResponse` gives status 200 and an HTML content
type. The current time is an input of the model. -/
def root (now : DateTime) (port : Int) : HTTPResponse :=
  { status := 200
    contentType := "text/html; charset=utf-8"
    body := _render_page (strftimeUTC now) port }

/-- The `healthz` handler's return value (main.py lines 56-59). -/
def healthz : List (String × String) := [("status", "ok")]

/-- Compact JSON serialization of a string-valued object, as FastAPI's
`JSONResponse` produces via `json.dumps(..., separators=(",", ":"))` for
payloads without characters needing escapes. -/
def jsonOfPairs (l : List (String × String)) : String :=
  "\x7b" ++ String.intercalate ","
    (l.map fun kv => "\"" ++ kv.1 ++ "\":\"" ++ kv.2 ++ "\"") ++ "\x7d"

/-- The response FastAPI builds from `healthz`: JSON body, status 200. -/
def healthzResponse : HTTPResponse :=
  { status := 200, contentType := "application/json", body := jsonOfPairs healthz }

/-- Starlette's default response for a path that matches no route. -/
def notFoundResponse : HTTPResponse :=
  { status := 404, contentType := "application/json", body := jsonOfPairs [("detail", "Not Found")] }

/-- Starlette's default response for a known path with an unsupported
method. -/
def methodNotAllowedResponse : HTTPResponse :=
  { status := 405, contentType := "application/json", body := jsonOfPairs [("detail", "Method Not Allowed")] }

/-- The framework's route dispatch over the two registered routes
(main.py lines 49 and 56): `GET /` and `GET /healthz`, with the
framework's standard behaviour elsewhere. -/
def dispatch (now : DateTime) (port : Int) (req : Request) : HTTPResponse :=
  if req.method = "GET" ∧ req.path = "/" then root now port
  else if req.method = "GET" ∧ req.path = "/healthz" then healthzResponse
  else if req.path = "/" ∨ req.path = "/healthz" then methodNotAllowedResponse
  else notFoundResponse

/-- The message of the middleware's log call
`logger.info("%s %s → %s", request.method, request.url.path,
response.status_code)`. -/
def reqLogLine (req : Request) (resp : HTTPResponse) : String :=
  req.method ++ " " ++ req.path ++ " → " ++ pyStrNat resp.status

/-- The `log_requests` middleware (main.py lines 38-43): run the
downstream handler, then append one log line, and return the handler's
response unchanged. Handlers are modelled as returning a response together
with the log lines they emit. -/
def log_requests (call_next : Request → HTTPResponse × List String)
    (request : Request) : HTTPResponse × List String :=
  let r := call_next request
  (r.1, r.2 ++ [reqLogLine request r.1])

/-- The application's full per-request pipeline: the middleware wrapped
around the dispatcher (the handlers themselves emit no log lines). -/
def appHandle (now : DateTime) (port : Int) (req : Request) :
    HTTPResponse × List String :=
  log_requests (fun r => (dispatch now port r, [])) req

/-- Serving a sequence of requests, each with the wall-clock time at which
it arrives: the service keeps no state between requests, so serving is a
map over the sequence. -/
def serve (port : Int) (reqs : List (Request × DateTime)) :
    List (HTTPResponse × List String) :=
  reqs.map fun rt => appHandle rt.2 port rt.1

/- ----------------------------------------------------------------------
Startup (main.py lines 65-67): FastAPI runs `startup` event handlers
before the server begins accepting connections; the lifecycle is modelled
as an event trace.
---------------------------------------------------------------------- -/

/-- An event in the process startup trace. -/
inductive LifecycleEvent where
  | logLine : String → LifecycleEvent
  | serverReady : LifecycleEvent
deriving DecidableEq

/-- Extract the message of a log event. -/
def LifecycleEvent.getLog : LifecycleEvent → Option String
  | .logLine s => some s
  | .serverReady => none

/-- The startup log message
`logger.info("Listening on http://0.0.0.0:%s/", PORT)`. -/
def startupMessage (port : Int) : String :=
  "Listening on http://0.0.0.0:" ++ pyStrInt port ++ "/"

/-- The `_on_startup` hook (main.py lines 65-67): emits the one startup
log line. -/
def _on_startup (port : Int) : List LifecycleEvent :=
  [.logLine (startupMessage port)]

/-- The process startup trace: the startup hook's events, then the server
becomes ready to accept connections. -/
def startupTrace (port : Int) : List LifecycleEvent :=
  _on_startup port ++ [.serverReady]

/- ----------------------------------------------------------------------
Supporting lemmas.
---------------------------------------------------------------------- -/

/-- The character list underlying `String.mk`. -/
theorem data_mk (l : List Char) : (String.mk l).data = l := rfl

/-- `countOcc` splits at an append through `countStart`. -/
theorem countOcc_append (pat ys : List Char) :
    ∀ xs : List Char, countOcc pat (xs ++ ys) = countStart pat ys xs + countOcc pat ys := by
  intro xs
  induction xs with
  | nil => simp [countStart]
  | cons x xs' ih =>
    simp only [List.cons_append, countOcc, countStart, List.append_eq, ih]
    omega

/-- A nonempty pattern never occurs in the empty list. -/
theorem countOcc_nil_of_ne (pat : List Char) (hp : pat ≠ []) : countOcc pat [] = 0 := by
  cases pat with
  | nil => exact absurd rfl hp
  | cons p ps => simp [countOcc, List.isPrefixOf]

/-- A prefix test is unaffected by appending a block that starts with a
character the pattern does not contain. -/
theorem isPrefixOf_sep (t ys : List Char) (ht : t ≠ []) :
    ∀ (pat xs : List Char), (∀ c ∈ pat, c ∉ t) →
      pat.isPrefixOf (xs ++ (t ++ ys)) = pat.isPrefixOf xs := by
  intro pat
  induction pat with
  | nil => intro xs _; cases xs <;> simp [List.isPrefixOf]
  | cons p ps ih =>
    intro xs hd
    cases xs with
    | nil =>
      cases t with
      | nil => exact absurd rfl ht
      | cons u t' =>
        have hpu : ¬(p = u) :=
          fun h => hd p (List.mem_cons_self p ps) (h ▸ List.mem_cons_self u t')
        simp [List.isPrefixOf, hpu]
    | cons x xs' =>
      simp only [List.cons_append, List.isPrefixOf, List.append_eq]
      rw [ih xs' (fun c hc => hd c (List.mem_cons_of_mem p hc))]

/-- Occurrences of a pattern skip over a leading block made of characters
the pattern does not contain. -/
theorem countOcc_sep_left (pat ys : List Char) (hp : pat ≠ []) :
    ∀ t : List Char, (∀ c ∈ pat, c ∉ t) → countOcc pat (t ++ ys) = countOcc pat ys := by
  intro t
  induction t with
  | nil => intro _; rfl
  | cons u t' ih =>
    intro hd
    have h1 : pat.isPrefixOf (u :: (t' ++ ys)) = false := by
      cases pat with
      | nil => exact absurd rfl hp
      | cons p ps =>
        have hpu : ¬(p = u) :=
          fun h => hd p (List.mem_cons_self p ps) (h ▸ List.mem_cons_self u t')
        simp [List.isPrefixOf, hpu]
    calc countOcc pat ((u :: t') ++ ys)
        = (if pat.isPrefixOf (u :: (t' ++ ys)) then 1 else 0) + countOcc pat (t' ++ ys) := rfl
      _ = countOcc pat (t' ++ ys) := by rw [h1]; simp
      _ = countOcc pat ys := ih (fun c hc hmem => hd c hc (List.mem_cons_of_mem u hmem))

/-- Counting across `xs ++ t ++ ys` when the middle block `t` is nonempty
and shares no character with the pattern: no occurrence can touch `t`, so
the count splits cleanly. -/
theorem countOcc_append_sep (pat t ys : List Char) (hp : pat ≠ [])
    (hd : ∀ c ∈ pat, c ∉ t) (ht : t ≠ []) :
    ∀ xs : List Char, countOcc pat (xs ++ (t ++ ys)) = countOcc pat xs + countOcc pat ys := by
  intro xs
  induction xs with
  | nil =>
    simpa [countOcc_nil_of_ne pat hp] using countOcc_sep_left pat ys hp t hd
  | cons x xs' ih =>
    have hpre := isPrefixOf_sep t ys ht pat (x :: xs') hd
    calc countOcc pat ((x :: xs') ++ (t ++ ys))
        = (if pat.isPrefixOf ((x :: xs') ++ (t ++ ys)) then 1 else 0) +
            countOcc pat (xs' ++ (t ++ ys)) := rfl
      _ = (if pat.isPrefixOf (x :: xs') then 1 else 0) + (countOcc pat xs' + countOcc pat ys) := by
          rw [hpre, ih]
      _ = countOcc pat (x :: xs') + countOcc pat ys := by simp [countOcc]; omega

/-- `digitChar` yields a decimal digit character below 10. -/
theorem digitChar_isDigit (n : Nat) (h : n < 10) : (digitChar n).isDigit = true := by
  interval_cases n <;> decide

/-- Every character `natDigitsAux` emits is a decimal digit. -/
theorem natDigitsAux_digits : ∀ fuel n : Nat, ∀ c ∈ natDigitsAux fuel n, c.isDigit = true := by
  intro fuel
  induction fuel with
  | zero => intro n c hc; simp [natDigitsAux] at hc
  | succ f ih =>
    intro n c hc
    by_cases h : n < 10
    · simp [natDigitsAux, h] at hc
      exact hc ▸ digitChar_isDigit n h
    · simp [natDigitsAux, h] at hc
      rcases hc with hc | hc
      · exact ih _ c hc
      · exact hc ▸ digitChar_isDigit _ (Nat.mod_lt n (by norm_num))

/-- Every character of `natDigits n` is a decimal digit. -/
theorem natDigits_digits (n : Nat) : ∀ c ∈ natDigits n, c.isDigit = true :=
  natDigitsAux_digits (n + 1) n

/-- The digit list of a natural number is never empty. -/
theorem natDigits_ne_nil (n : Nat) : natDigits n ≠ [] := by
  unfold natDigits natDigitsAux
  by_cases h : n < 10 <;> simp [h]

/-- Every character of `pyStrInt p` is a minus sign or a decimal digit. -/
theorem pyStrInt_chars (p : Int) : ∀ c ∈ (pyStrInt p).data, c = '-' ∨ c.isDigit = true := by
  intro c hc
  unfold pyStrInt at hc
  by_cases h : p < 0 <;> simp [h, data_mk] at hc
  · rcases hc with hc | hc
    · exact Or.inl hc
    · exact Or.inr (natDigits_digits _ c hc)
  · exact Or.inr (natDigits_digits _ c hc)

/-- `str` of an integer is never empty. -/
theorem pyStrInt_ne_nil (p : Int) : (pyStrInt p).data ≠ [] := by
  unfold pyStrInt
  by_cases h : p < 0 <;> simp [h, data_mk]
  exact natDigits_ne_nil _

/-- The rendered page, decomposed at the placeholder boundaries. -/
theorem render_data (t : String) (p : Int) :
    (_render_page t p).data =
      htmlPart1.data ++ (t.data ++ (htmlPart2.data ++ ((pyStrInt p).data ++ htmlPart3.data))) := by
  simp [_render_page, String.data_append, List.append_assoc]

/-- A block sitting between two others is an infix. -/
theorem infix_of_decomp (l pre mid post : List Char) (h : l = pre ++ (mid ++ post)) :
    mid <:+: l :=
  ⟨pre, post, by rw [h, List.append_assoc]⟩

/-- The `<html` opening tag occurs exactly once in the template part
before the placeholders. -/
theorem countOcc_open_htmlPart1 : countOcc openTag htmlPart1.data = 1 := by
  have h : htmlPart1.data = htmlPart1a.data ++ htmlPart1b.data := by
    simp [htmlPart1, String.data_append]
  rw [h, countOcc_append]
  decide

/-- The `</html>` closing tag does not occur in the template part before
the placeholders. -/
theorem countOcc_close_htmlPart1 : countOcc closeTag htmlPart1.data = 0 := by
  have h : htmlPart1.data = htmlPart1a.data ++ htmlPart1b.data := by
    simp [htmlPart1, String.data_append]
  rw [h, countOcc_append]
  decide

/-- Neither tag occurs in the template part between the placeholders. -/
theorem countOcc_open_htmlPart2 : countOcc openTag htmlPart2.data = 0 := by decide

/-- The opening tag does not occur in the template part after the
placeholders. -/
theorem countOcc_open_htmlPart3 : countOcc openTag htmlPart3.data = 0 := by decide

/-- The closing tag does not occur in the template part between the
placeholders. -/
theorem countOcc_close_htmlPart2 : countOcc closeTag htmlPart2.data = 0 := by decide

/-- The closing tag occurs exactly once in the template part after the
placeholders. -/
theorem countOcc_close_htmlPart3 : countOcc closeTag htmlPart3.data = 1 := by decide

/-- A tag built from `tagChars` shares no character with the decimal
rendering of an integer. -/
theorem tag_not_in_pyStrInt (pat : List Char) (hsub : ∀ c ∈ pat, c ∈ tagChars) (p : Int) :
    ∀ c ∈ pat, c ∉ (pyStrInt p).data := by
  intro c hc hmem
  have htag : c ∈ tagChars := hsub c hc
  rcases pyStrInt_chars p c hmem with h | h
  · subst h; revert htag; decide
  · have hnd : ∀ x ∈ tagChars, x.isDigit = false := by decide
    rw [hnd c htag] at h
    cases h

/-- For a nonempty interpolated string with no tag characters, each tag
occurs in the page exactly as often as in the template. -/
theorem page_tag_count (pat : List Char) (hsub : ∀ c ∈ pat, c ∈ tagChars) (hp : pat ≠ [])
    (t : String) (p : Int) (hne : t.data ≠ []) (hd : ∀ c ∈ t.data, c ∉ tagChars) :
    countOcc pat (_render_page t p).data =
      countOcc pat htmlPart1.data + (countOcc pat htmlPart2.data + countOcc pat htmlPart3.data) := by
  have hdt : ∀ c ∈ pat, c ∉ t.data := fun c hc hmem => hd c hmem (hsub c hc)
  rw [render_data,
    countOcc_append_sep pat t.data (htmlPart2.data ++ ((pyStrInt p).data ++ htmlPart3.data))
      hp hdt hne htmlPart1.data,
    countOcc_append_sep pat (pyStrInt p).data htmlPart3.data
      hp (tag_not_in_pyStrInt pat hsub p) (pyStrInt_ne_nil p) htmlPart2.data]

/-- The doctype declaration starts the rendered page. -/
theorem doctype_prefix (t : String) (p : Int) :
    ("<!DOCTYPE html>" : String).data <+: (_render_page t p).data := by
  rw [render_data]
  have h1a : ("<!DOCTYPE html>" : String).data <+: htmlPart1a.data :=
    List.isPrefixOf_iff_prefix.mp (by decide)
  have h1 : ("<!DOCTYPE html>" : String).data <+: htmlPart1.data := by
    rw [show htmlPart1.data = htmlPart1a.data ++ htmlPart1b.data from by
      simp [htmlPart1, String.data_append]]
    exact h1a.trans (List.prefix_append _ _)
  exact h1.trans (List.prefix_append _ _)

/-- The closing tag ends the rendered page. -/
theorem close_suffix (t : String) (p : Int) :
    closeTag <:+ (_render_page t p).data := by
  rw [render_data]
  have h3 : closeTag <:+ htmlPart3.data := List.isSuffixOf_iff_suffix.mp (by decide)
  exact (((h3.trans (List.suffix_append _ _)).trans (List.suffix_append _ _)).trans
    (List.suffix_append _ _)).trans (List.suffix_append _ _)

/-- A page rendered from a nonempty string without tag characters has a
single root `<html>` element. -/
theorem page_singleRoot (t : String) (p : Int) (hne : t.data ≠ [])
    (hd : ∀ c ∈ t.data, c ∉ tagChars) : singleRootHtml (_render_page t p) := by
  refine ⟨?_, ?_, doctype_prefix t p, close_suffix t p⟩
  · rw [page_tag_count openTag (by decide) (by decide) t p hne hd,
      countOcc_open_htmlPart1, countOcc_open_htmlPart2, countOcc_open_htmlPart3]
  · rw [page_tag_count closeTag (by decide) (by decide) t p hne hd,
      countOcc_close_htmlPart1, countOcc_close_htmlPart2, countOcc_close_htmlPart3]

/- ----------------------------------------------------------------------
Claim theorems.
---------------------------------------------------------------------- -/

/-- C1 (amended): for every timestamp string `T` and port `P`,
`_render_page` returns a document containing `T` and `str(P)` as
substrings; and whenever `T` is nonempty and contains none of the
characters `<`, `>`, `/`, `h`, `t`, `m`, `l`, the document is well-formed
HTML with a single root `<html>` element. (As originally stated — for
every `T` — the well-formedness clause fails, e.g. at `T = "<html>"`.) -/
theorem render_page_contains_and_wellformed (t : String) (p : Int) :
    t.data <:+: (_render_page t p).data ∧
    (pyStrInt p).data <:+: (_render_page t p).data ∧
    (t.data ≠ [] → (∀ c ∈ t.data, c ∉ tagChars) → singleRootHtml (_render_page t p)) := by
  refine ⟨?_, ?_, fun hne hd => page_singleRoot t p hne hd⟩
  · exact infix_of_decomp _ htmlPart1.data t.data
      (htmlPart2.data ++ ((pyStrInt p).data ++ htmlPart3.data)) (render_data t p)
  · exact infix_of_decomp _ (htmlPart1.data ++ (t.data ++ htmlPart2.data)) (pyStrInt p).data
      htmlPart3.data (by rw [render_data]; simp [List.append_assoc])

/-- C1 witness: at the concrete timestamp `2025-10-12 03:04:05 UTC` and
port 8080 the hypotheses hold, so the rendered page has a single root
`<html>` element. -/
theorem render_page_contains_and_wellformed_witness :
    singleRootHtml (_render_page "2025-10-12 03:04:05 UTC" 8080) :=
  (render_page_contains_and_wellformed "2025-10-12 03:04:05 UTC" 8080).2.2
    (by decide) (by decide)

/-- C1 counterexample: with `T = "<html>"` the rendered page contains two
`<html` opening tags, so it is not well-formed HTML with a single root
`<html>` element, refuting the claim as stated for every `T`. -/
theorem render_page_not_single_root_on_markup :
    ¬ singleRootHtml (_render_page "<html>" 8080) := by
  intro h
  have hd : (_render_page "<html>" 8080).data =
      htmlPart1a.data ++ (htmlPart1b.data ++ (("<html>" : String).data ++
        (htmlPart2.data ++ (("8080" : String).data ++ htmlPart3.data)))) := by
    have hp : pyStrInt 8080 = "8080" := by decide
    simp [_render_page, htmlPart1, hp, String.data_append, List.append_assoc]
  have h2 : countOcc openTag (_render_page "<html>" 8080).data = 2 := by
    rw [hd, countOcc_append, countOcc_append, countOcc_append, countOcc_append,
      countOcc_append]
    decide
  rw [h.1] at h2
  cases h2

/-- C10: `_render_page` embeds its `server_time` argument verbatim, with
no HTML escaping: for every string `s` (markup included) the page is
literally the template text around the unmodified characters of `s`, and
`s` occurs in the output as a substring. -/
theorem render_page_verbatim (s : String) (p : Int) :
    (_render_page s p).data =
      htmlPart1.data ++ (s.data ++ (htmlPart2.data ++ ((pyStrInt p).data ++ htmlPart3.data))) ∧
    s.data <:+: (_render_page s p).data :=
  ⟨render_data s p,
    infix_of_decomp _ htmlPart1.data s.data
      (htmlPart2.data ++ ((pyStrInt p).data ++ htmlPart3.data)) (render_data s p)⟩

/-- C8: page rendering is a pure, total, deterministic function: it is a
total Lean function into `String` (so no I/O and no exceptions are
possible in the model), and any two evaluations on equal inputs return
identical HTML strings. -/
theorem render_page_deterministic (t₁ t₂ : String) (p₁ p₂ : Int)
    (ht : t₁ = t₂) (hp : p₁ = p₂) : _render_page t₁ p₁ = _render_page t₂ p₂ := by
  rw [ht, hp]

/-- C8 witness: determinism instantiated at a concrete timestamp and
port. -/
theorem render_page_deterministic_witness :
    _render_page "2025-10-12 03:04:05 UTC" 8080 =
      _render_page "2025-10-12 03:04:05 UTC" 8080 :=
  render_page_deterministic _ _ _ _ rfl rfl

/-- C2 counterexample: with `PORT=abc` the `int()` call fails (modelled by
`none`, a raised `ValueError` aborting startup); the port is not 8080. -/
theorem port_unparsable_crashes :
    PORT (some "abc") = none ∧ PORT (some "abc") ≠ some 8080 :=
  ⟨by decide, by decide⟩

/-- C2 (amended): reading the configuration yields 8080 when the `PORT`
environment variable is unset and the parsed integer when it is parsable;
an unparsable value makes `int()` raise `ValueError` during module
import, crashing startup, instead of defaulting to 8080. -/
theorem port_default_and_crash :
    PORT none = some 8080 ∧ (∀ s, PORT (some s) = pyInt s) ∧
    PORT (some "9090") = some 9090 ∧ PORT (some "") = none ∧
    PORT (some "abc") = none :=
  ⟨by decide, fun _ => rfl, by decide, by decide, by decide⟩

/-- C6 counterexample: `PORT=0` parses successfully, so startup completes
with configured port 0, which is not positive. -/
theorem port_zero_not_positive :
    PORT (some "0") = some 0 ∧ ¬ ((0 : Int) < 0) :=
  ⟨by decide, by decide⟩

/-- C6 (amended): the configured port is whatever integer `PORT` parses
to; it is positive when `PORT` is unset (8080), but values such as `0` or
`-1` configure a non-positive port, so positivity does not hold for every
value `PORT` may hold. -/
theorem port_positive_only_when_parsed_positive :
    PORT none = some 8080 ∧ (0 : Int) < 8080 ∧
    PORT (some "0") = some 0 ∧ PORT (some "-1") = some (-1) :=
  ⟨by decide, by decide, by decide, by decide⟩

/-- C3: regardless of any prior requests, a `GET /healthz` request is
answered with status 200, JSON content type, and body exactly
`{"status": "ok"}`. -/
theorem healthz_always_ok (port : Int) (hist : List (Request × DateTime)) (t : DateTime) :
    ((serve port (hist ++ [({ method := "GET", path := "/healthz" }, t)])).getLastD
        ({ status := 0, contentType := "", body := "" }, [])).1 =
      { status := 200, contentType := "application/json",
        body := "\x7b\"status\":\"ok\"\x7d" } := by
  have hb : healthzResponse =
      { status := 200, contentType := "application/json",
        body := "\x7b\"status\":\"ok\"\x7d" } := by decide
  rw [serve, List.map_append, List.map_cons, List.map_nil, List.getLastD_concat]
  simp [appHandle, log_requests, dispatch, hb]

/-- C4: the logging middleware emits exactly one log line per request,
after the wrapped handler has produced its response (its line follows all
lines of the inner handler), and the line contains the request method,
the request path, and the decimal response status as substrings. -/
theorem log_requests_one_line (inner : Request → HTTPResponse × List String) (req : Request) :
    (log_requests inner req).2 = (inner req).2 ++ [reqLogLine req (inner req).1] ∧
    ((inner req).2 = [] → ((log_requests inner req).2).length = 1) ∧
    req.method.data <:+: (reqLogLine req (inner req).1).data ∧
    req.path.data <:+: (reqLogLine req (inner req).1).data ∧
    (pyStrNat (inner req).1.status).data <:+: (reqLogLine req (inner req).1).data := by
  have hdata : ∀ r : HTTPResponse, (reqLogLine req r).data =
      req.method.data ++ (' ' :: (req.path.data ++
        (' ' :: '→' :: ' ' :: (pyStrNat r.status).data))) := by
    intro r
    simp [reqLogLine, String.data_append, List.append_assoc]
  refine ⟨rfl, fun h => by simp [log_requests, h], ?_, ?_, ?_⟩
  · exact infix_of_decomp _ [] req.method.data
      (' ' :: (req.path.data ++ (' ' :: '→' :: ' ' :: (pyStrNat (inner req).1.status).data)))
      (by simp [hdata])
  · exact infix_of_decomp _ (req.method.data ++ [' ']) req.path.data
      (' ' :: '→' :: ' ' :: (pyStrNat (inner req).1.status).data)
      (by simp [hdata, List.append_assoc])
  · exact infix_of_decomp _
      (req.method.data ++ (' ' :: (req.path.data ++ [' ', '→', ' '])))
      (pyStrNat (inner req).1.status).data []
      (by simp [hdata, List.append_assoc])

/-- C4 witness: a concrete handler emitting no log lines and a concrete
request yield exactly one middleware log line. -/
theorem log_requests_one_line_witness :
    ((log_requests
        (fun _ => ({ status := 200, contentType := "text/html; charset=utf-8", body := "" }, []))
        { method := "GET", path := "/" }).2).length = 1 :=
  (log_requests_one_line
    (fun _ => ({ status := 200, contentType := "text/html; charset=utf-8", body := "" }, []))
    { method := "GET", path := "/" }).2.1 rfl

/-- C5: the logging middleware returns exactly the downstream handler's
response — status, content type and body unaltered — uniformly for every
handler and every request. -/
theorem log_requests_preserves_response
    (inner : Request → HTTPResponse × List String) (req : Request) :
    (log_requests inner req).1 = (inner req).1 := rfl

/-- C9: at process start exactly one log line is emitted before the
server is ready to accept connections, and its message is
`Listening on http://0.0.0.0:<port>/` for the configured port. -/
theorem startup_logs_once_before_ready (p : Int) :
    ∃ pre post, startupTrace p = pre ++ (LifecycleEvent.serverReady :: post) ∧
      pre.filterMap LifecycleEvent.getLog = [startupMessage p] ∧
      post.filterMap LifecycleEvent.getLog = [] :=
  ⟨[.logLine (startupMessage p)], [], rfl, rfl, rfl⟩

/-- Digit lists are short for bounded numbers: below `10 ^ k` at most `k`
digits are produced. -/
theorem natDigitsAux_length : ∀ fuel n k : Nat, 0 < k → n < 10 ^ k →
    (natDigitsAux fuel n).length ≤ k := by
  intro fuel
  induction fuel with
  | zero => intro n k _ _; simp [natDigitsAux]
  | succ f ih =>
    intro n k hk hn
    by_cases h : n < 10
    · simp [natDigitsAux, h]
      omega
    · have hk2 : 2 ≤ k := by
        rcases Nat.lt_or_ge k 2 with hlt | hge
        · interval_cases k
          · simp at hn
            omega
        · exact hge
      have hdiv : n / 10 < 10 ^ (k - 1) := by
        have hpow : 10 ^ (k - 1) * 10 = 10 ^ k := by
          rw [← pow_succ]
          congr 1
          omega
        rw [Nat.div_lt_iff_lt_mul (by norm_num)]
        omega
      have := ih (n / 10) (k - 1) (by omega) hdiv
      simp [natDigitsAux, h, List.length_append]
      omega

/-- A zero-padded decimal rendering of a number below `10 ^ k` has exactly
`k` characters, all digits. -/
theorem padNum_shape (k n : Nat) (hk : 0 < k) (hn : n < 10 ^ k) :
    (padNum k n).data.length = k ∧ ∀ c ∈ (padNum k n).data, c.isDigit = true := by
  have hlen : (natDigits n).length ≤ k := natDigitsAux_length (n + 1) n k hk hn
  constructor
  · simp [padNum, data_mk, List.length_append, List.length_replicate]
    omega
  · intro c hc
    simp [padNum, data_mk] at hc
    rcases hc with hc | hc
    · rw [hc.2]
      decide
    · exact natDigits_digits n c hc

/-- A two-element character list is literally a pair. -/
theorem list_shape_two (l : List Char) (h : l.length = 2) : ∃ a b, l = [a, b] := by
  cases l with
  | nil => simp at h
  | cons a l' =>
    cases l' with
    | nil => simp at h
    | cons b l'' =>
      cases l'' with
      | nil => exact ⟨a, b, rfl⟩
      | cons c l''' => simp at h

/-- A four-element character list is literally a quadruple. -/
theorem list_shape_four (l : List Char) (h : l.length = 4) : ∃ a b c d, l = [a, b, c, d] := by
  cases l with
  | nil => simp at h
  | cons a l' =>
    cases l' with
    | nil => simp at h
    | cons b l'' =>
      cases l'' with
      | nil => simp at h
      | cons c l''' =>
        cases l''' with
        | nil => simp at h
        | cons d l4 =>
          cases l4 with
          | nil => exact ⟨a, b, c, d, rfl⟩
          | cons e l5 => simp at h

/-- With in-range field values, `strftime` output matches the
`YYYY-MM-DD HH:MM:SS UTC` shape. -/
theorem strftime_format (t : DateTime) (hy : t.year < 10000) (hmo : t.month < 100)
    (hd : t.day < 100) (hh : t.hour < 100) (hmi : t.minute < 100) (hs : t.second < 100) :
    timeFormatOK (strftimeUTC t) = true := by
  obtain ⟨hylen, hydig⟩ := padNum_shape 4 t.year (by norm_num) (by simpa using hy)
  obtain ⟨y1, y2, y3, y4, hy4⟩ := list_shape_four _ hylen
  obtain ⟨hmolen, hmodig⟩ := padNum_shape 2 t.month (by norm_num) (by simpa using hmo)
  obtain ⟨m1, m2, hm2⟩ := list_shape_two _ hmolen
  obtain ⟨hdlen, hddig⟩ := padNum_shape 2 t.day (by norm_num) (by simpa using hd)
  obtain ⟨a1, a2, ha2⟩ := list_shape_two _ hdlen
  obtain ⟨hhlen, hhdig⟩ := padNum_shape 2 t.hour (by norm_num) (by simpa using hh)
  obtain ⟨b1, b2, hb2⟩ := list_shape_two _ hhlen
  obtain ⟨hmilen, hmidig⟩ := padNum_shape 2 t.minute (by norm_num) (by simpa using hmi)
  obtain ⟨n1, n2, hn2⟩ := list_shape_two _ hmilen
  obtain ⟨hslen, hsdig⟩ := padNum_shape 2 t.second (by norm_num) (by simpa using hs)
  obtain ⟨s1, s2, hs2⟩ := list_shape_two _ hslen
  have hdash : ("-" : String).data = ['-'] := rfl
  have hsp : (" " : String).data = [' '] := rfl
  have hcol : (":" : String).data = [':'] := rfl
  have hutc : (" UTC" : String).data = [' ', 'U', 'T', 'C'] := rfl
  have hdata : (strftimeUTC t).data =
      [y1, y2, y3, y4, '-', m1, m2, '-', a1, a2, ' ',
        b1, b2, ':', n1, n2, ':', s1, s2, ' ', 'U', 'T', 'C'] := by
    simp [strftimeUTC, String.data_append, hy4, hm2, ha2, hb2, hn2, hs2,
      hdash, hsp, hcol, hutc, List.append_assoc]
  have e1 : y1.isDigit = true := hydig y1 (by rw [hy4]; simp)
  have e2 : y2.isDigit = true := hydig y2 (by rw [hy4]; simp)
  have e3 : y3.isDigit = true := hydig y3 (by rw [hy4]; simp)
  have e4 : y4.isDigit = true := hydig y4 (by rw [hy4]; simp)
  have e5 : m1.isDigit = true := hmodig m1 (by rw [hm2]; simp)
  have e6 : m2.isDigit = true := hmodig m2 (by rw [hm2]; simp)
  have e7 : a1.isDigit = true := hddig a1 (by rw [ha2]; simp)
  have e8 : a2.isDigit = true := hddig a2 (by rw [ha2]; simp)
  have e9 : b1.isDigit = true := hhdig b1 (by rw [hb2]; simp)
  have e10 : b2.isDigit = true := hhdig b2 (by rw [hb2]; simp)
  have e11 : n1.isDigit = true := hmidig n1 (by rw [hn2]; simp)
  have e12 : n2.isDigit = true := hmidig n2 (by rw [hn2]; simp)
  have e13 : s1.isDigit = true := hsdig s1 (by rw [hs2]; simp)
  have e14 : s2.isDigit = true := hsdig s2 (by rw [hs2]; simp)
  unfold timeFormatOK
  rw [hdata]
  simp [e1, e2, e3, e4, e5, e6, e7, e8, e9, e10, e11, e12, e13, e14]

/-- C7: the `GET /` handler returns status 200 with HTML content type;
its body is exactly the landing page rendered from the formatted current
UTC time and the configured port, so it contains both as substrings; and
with in-range clock fields the embedded time matches the
`YYYY-MM-DD HH:MM:SS UTC` format. -/
theorem root_response_ok (t : DateTime) (p : Int) :
    (root t p).status = 200 ∧
    (root t p).contentType = "text/html; charset=utf-8" ∧
    (root t p).body = _render_page (strftimeUTC t) p ∧
    (strftimeUTC t).data <:+: (root t p).body.data ∧
    (pyStrInt p).data <:+: (root t p).body.data ∧
    (t.year < 10000 → t.month < 100 → t.day < 100 → t.hour < 100 →
      t.minute < 100 → t.second < 100 → timeFormatOK (strftimeUTC t) = true) := by
  refine ⟨rfl, rfl, rfl, ?_, ?_,
    fun hy hmo hd hh hmi hs => strftime_format t hy hmo hd hh hmi hs⟩
  · exact infix_of_decomp _ htmlPart1.data (strftimeUTC t).data
      (htmlPart2.data ++ ((pyStrInt p).data ++ htmlPart3.data)) (render_data (strftimeUTC t) p)
  · exact infix_of_decomp _ (htmlPart1.data ++ ((strftimeUTC t).data ++ htmlPart2.data))
      (pyStrInt p).data htmlPart3.data
      (by rw [show (root t p).body = _render_page (strftimeUTC t) p from rfl, render_data]
          simp [List.append_assoc])

/-- C7 witness: at a concrete in-range clock reading and port 8080 the
hypotheses hold, and the formatted time has the documented shape. -/
theorem root_response_ok_witness :
    timeFormatOK (strftimeUTC ⟨2025, 10, 12, 3, 4, 5⟩) = true ∧
    (root ⟨2025, 10, 12, 3, 4, 5⟩ 8080).status = 200 :=
  ⟨(root_response_ok ⟨2025, 10, 12, 3, 4, 5⟩ 8080).2.2.2.2.2 (by decide) (by decide)
      (by decide) (by decide) (by decide) (by decide),
    (root_response_ok ⟨2025, 10, 12, 3, 4, 5⟩ 8080).1⟩
